import Mathlib

/-!
Verification of the authentication guard core and the frontend auth client
of the repository.  The backend components (PasswordHasher, AttemptLedger,
TokenIssuer, AuthGuard) are described in spec.md but their source is not in
the repository snapshot; they are modelled from the spec, as marked on each
definition.  The frontend JavaScript (script.js and the AuthService class)
is embedded directly from the source.
-/

/-! ## Configuration constants (spec section 6: threshold 5, window 15 min, token lifetime 30 min).
Time is measured in seconds. -/

/-- Modelled from the spec: attempt threshold, default 5. -/
def threshold : Nat := 5

/-- Modelled from the spec: lockout window, default 15 minutes, in seconds. -/
def windowLen : Nat := 15 * 60

/-- Modelled from the spec: token lifetime, default 30 minutes, in seconds. -/
def tokenLifetime : Nat := 30 * 60

/-! ## AttemptLedger (modelled from the spec, section 4.2; backend source absent from src/) -/

/-- Modelled from the spec: attempt record, keyed by identity: count of
consecutive failures, timestamp of first failure in the current window,
timestamp of last failure. -/
structure AttemptState where
  count : Nat
  window_start : Nat
  last_failure : Nat
deriving DecidableEq

/-- Modelled from the spec: the attempt ledger storage, an in-memory map
from identity to attempt record, here an association list. -/
abbrev AttemptLedger := List (String × AttemptState)

/-- Look up the attempt record for an identity. -/
def AttemptLedger.find (l : AttemptLedger) (identity : String) : Option AttemptState :=
  match l with
  | [] => none
  | (k, st) :: rest => if k = identity then some st else AttemptLedger.find rest identity

/-- Remove every entry for an identity. -/
def AttemptLedger.erase (l : AttemptLedger) (identity : String) : AttemptLedger :=
  match l with
  | [] => []
  | (k, st) :: rest =>
      if k = identity then AttemptLedger.erase rest identity
      else (k, st) :: AttemptLedger.erase rest identity

/-- Store the attempt record for an identity, replacing any previous one. -/
def AttemptLedger.store (l : AttemptLedger) (identity : String) (st : AttemptState) :
    AttemptLedger :=
  (identity, st) :: AttemptLedger.erase l identity

/-- Modelled from the spec: record_failure(identity, now) increments the
counter for the identity; if no window is open or the prior window has
expired, starts a fresh window with count 1.  Window membership is the
half-open interval from window_start to window_start + windowLen. -/
def AttemptLedger.record_failure (l : AttemptLedger) (identity : String) (now : Nat) :
    AttemptLedger :=
  match AttemptLedger.find l identity with
  | none => AttemptLedger.store l identity ⟨1, now, now⟩
  | some st =>
      if now < st.window_start + windowLen then
        AttemptLedger.store l identity ⟨st.count + 1, st.window_start, now⟩
      else
        AttemptLedger.store l identity ⟨1, now, now⟩

/-- Modelled from the spec: record_success(identity) clears the entry entirely. -/
def AttemptLedger.record_success (l : AttemptLedger) (identity : String) : AttemptLedger :=
  AttemptLedger.erase l identity

/-- Modelled from the spec: lockout decision, derived, not stored. -/
structure LockoutDecision where
  allowed : Bool
  retry_after : Option Nat
deriving DecidableEq

/-- Modelled from the spec: check(identity, now) returns allowed=true if no
entry exists, or if count < threshold, or if the window has expired;
otherwise allowed=false with retry_after = window_start + windowLen - now. -/
def AttemptLedger.check (l : AttemptLedger) (identity : String) (now : Nat) :
    LockoutDecision :=
  match AttemptLedger.find l identity with
  | none => ⟨true, none⟩
  | some st =>
      if st.count < threshold then ⟨true, none⟩
      else if st.window_start + windowLen ≤ now then ⟨true, none⟩
      else ⟨false, some (st.window_start + windowLen - now)⟩

/-! Basic ledger lemmas. -/

theorem AttemptLedger.find_store_self (l : AttemptLedger) (identity : String)
    (st : AttemptState) : (l.store identity st).find identity = some st := by
  simp [AttemptLedger.store, AttemptLedger.find]

theorem AttemptLedger.find_erase_self (l : AttemptLedger) (identity : String) :
    (l.erase identity).find identity = none := by
  induction l with
  | nil => simp [AttemptLedger.erase, AttemptLedger.find]
  | cons hd tl ih =>
      obtain ⟨k, st⟩ := hd
      by_cases hk : k = identity
      · simpa [AttemptLedger.erase, hk] using ih
      · simpa [AttemptLedger.erase, AttemptLedger.find, hk] using ih

theorem AttemptLedger.find_record_failure_fresh (l : AttemptLedger) (identity : String)
    (now : Nat) (h : l.find identity = none) :
    (l.record_failure identity now).find identity = some ⟨1, now, now⟩ := by
  simp [AttemptLedger.record_failure, h, AttemptLedger.find_store_self]

theorem AttemptLedger.find_record_failure_open (l : AttemptLedger) (identity : String)
    (now : Nat) (st : AttemptState) (h : l.find identity = some st)
    (hw : now < st.window_start + windowLen) :
    (l.record_failure identity now).find identity =
      some ⟨st.count + 1, st.window_start, now⟩ := by
  simp [AttemptLedger.record_failure, h, hw, AttemptLedger.find_store_self]

/-! ## TokenIssuer (modelled from the spec, section 4.3; backend source absent from src/).
Signing is modelled symbolically: a signature is valid exactly when it was
produced by signing the same payload with the same key. -/

/-- Modelled from the spec: the signed payload of a session token. -/
structure Payload where
  subject : String
  issued_at : Nat
  expires_at : Nat
deriving DecidableEq

/-- Modelled from the spec: a signature over a payload with a key (symbolic model). -/
structure Sig where
  key : Nat
  payload : Payload
deriving DecidableEq

/-- Modelled from the spec: signing a payload with the process-wide secret key. -/
def sign (key : Nat) (p : Payload) : Sig := ⟨key, p⟩

/-- Modelled from the spec: a presented token either parses into a signed
payload or is malformed. -/
inductive Token where
  | malformed
  | signed (payload : Payload) (sig : Sig)
deriving DecidableEq

/-- Modelled from the spec: the token error taxonomy. -/
inductive TokenError where
  | BadSignature
  | Expired
  | Malformed
deriving DecidableEq

/-- Modelled from the spec: issue(identity, now) creates a signed payload
with subject, issued_at = now and expires_at = now + tokenLifetime. -/
def TokenIssuer.issue (key : Nat) (identity : String) (now : Nat) : Token :=
  Token.signed ⟨identity, now, now + tokenLifetime⟩ (sign key ⟨identity, now, now + tokenLifetime⟩)

/-- Modelled from the spec: verify(token, now) fails with Malformed if the
token cannot be parsed, BadSignature if the signature does not verify,
Expired if now is at or past expires_at; otherwise returns the subject.
Signature verification precedes any use of the payload fields. -/
def TokenIssuer.verify (key : Nat) (t : Token) (now : Nat) : Except TokenError String :=
  match t with
  | Token.malformed => Except.error TokenError.Malformed
  | Token.signed p s =>
      if s ≠ sign key p then Except.error TokenError.BadSignature
      else if p.expires_at ≤ now then Except.error TokenError.Expired
      else Except.ok p.subject

/-! ## PasswordHasher (modelled from the spec, section 4.1; backend source absent from src/).
The hash function is modelled as an ideal (collision-free) salted digest;
plaintexts are bit strings so that single-bit flips are expressible. -/

/-- Modelled from the spec: the digest part of a hash blob, an ideal
salted digest determined by the salt and the plaintext. -/
structure Digest where
  salt : Nat
  image : List Bool
deriving DecidableEq

/-- Modelled from the spec: a hash blob self-describing its cost
parameters and salt, or a malformed blob. -/
inductive HashBlob where
  | blob (salt memoryCost timeCost parallelism : Nat) (digest : Digest)
  | malformed
deriving DecidableEq

/-- Modelled from the spec: hash(plaintext) with the per-call random salt
made an explicit parameter; produces a self-describing blob. -/
def PasswordHasher.hash (plaintext : List Bool) (salt : Nat) : HashBlob :=
  HashBlob.blob salt 19456 2 1 ⟨salt, plaintext⟩

/-- Modelled from the spec: verify(plaintext, hash_blob) recomputes the
digest with the embedded salt and compares; total, and fails closed
(returns false) on a malformed hash_blob. -/
def PasswordHasher.verify (plaintext : List Bool) (h : HashBlob) : Bool :=
  match h with
  | HashBlob.malformed => false
  | HashBlob.blob salt _ _ _ d => d = ⟨salt, plaintext⟩

/-- Flip bit i of a plaintext bit string. -/
def flipBit (p : List Bool) (i : Nat) : List Bool :=
  p.set i (!(p.getD i false))

/-! ## AuthGuard (modelled from the spec, sections 2 and 4.4; backend source absent from src/). -/

/-- Modelled from the spec: outcome of a login attempt. -/
inductive AuthResult where
  | token (t : Token)
  | invalidCredentials
  | lockedOut (retry_after : Nat)
deriving DecidableEq

/-- Modelled from the spec: AuthGuard login orchestration.  Consults the
ledger; on pass, verifies the password; on success resets the ledger and
issues a token; on failure records the failure.  Returns the result, the
updated ledger, and whether password verification was invoked. -/
def AuthGuard.login (key : Nat) (creds : List (String × HashBlob)) (l : AttemptLedger)
    (identity : String) (password : List Bool) (now : Nat) :
    AuthResult × AttemptLedger × Bool :=
  let d := AttemptLedger.check l identity now
  if d.allowed then
    match creds.lookup identity with
    | none => (AuthResult.invalidCredentials, l.record_failure identity now, false)
    | some h =>
        if PasswordHasher.verify password h then
          (AuthResult.token (TokenIssuer.issue key identity now), l.record_success identity, true)
        else
          (AuthResult.invalidCredentials, l.record_failure identity now, true)
  else
    (AuthResult.lockedOut (d.retry_after.getD 0), l, false)

/-! ## Frontend: the AuthService class (src/unnamed/part_001).
State of an AuthService instance together with the localStorage entries it
manages; fetch outcomes and parsed JSON bodies are inputs to the embedded
methods. -/

/-- Parsed JSON body of a login/register response, as the AuthService code
reads it: data.token.access_token when the token object is present, and
data.user.  The body is returned to the caller as a value. -/
structure RespData where
  token : Option String
  user : Option String
deriving DecidableEq

/-- Outcome of the fetch plus response.json() steps inside the try block:
the fetch promise rejects, response.json() throws, or a body is parsed
along with response.ok. -/
inductive FetchOutcome where
  | netError
  | jsonError (ok : Bool)
  | success (ok : Bool) (data : RespData)
deriving DecidableEq

/-- State of an AuthService instance: this.token, this.user, and the
localStorage entries for token and user. -/
structure AuthState where
  token : Option String
  user : Option String
  lsToken : Option String
  lsUser : Option String
deriving DecidableEq

/-- Value returned by AuthService.login / AuthService.register: either the
parsed response body, or the object with success false and the
connection-error message built in the catch block. -/
inductive LoginResult where
  | body (data : RespData)
  | connError
deriving DecidableEq

/-- Embeds AuthService.setAuthData: sets this.token and this.user and
writes both localStorage entries. -/
def AuthService.setAuthData (s : AuthState) (tok : String) (user : Option String) :
    AuthState :=
  { s with token := some tok, user := user, lsToken := some tok, lsUser := user }

/-- Embeds AuthService.login: the whole body is inside try/catch; a fetch
rejection or a response.json() throw lands in catch, which returns the
connection-error object.  On response.ok the code reads
data.token.access_token (throwing into the same catch when data.token is
absent) and calls setAuthData; the parsed data is returned. -/
def AuthService.login (s : AuthState) (outcome : FetchOutcome) : AuthState × LoginResult :=
  match outcome with
  | FetchOutcome.netError => (s, LoginResult.connError)
  | FetchOutcome.jsonError _ => (s, LoginResult.connError)
  | FetchOutcome.success ok data =>
      if ok then
        match data.token with
        | some tok => (AuthService.setAuthData s tok data.user, LoginResult.body data)
        | none => (s, LoginResult.connError)
      else
        (s, LoginResult.body data)

/-- Embeds AuthService.register: identical control flow to login (only the
endpoint and request body differ, which are outside the model). -/
def AuthService.register (s : AuthState) (outcome : FetchOutcome) : AuthState × LoginResult :=
  match outcome with
  | FetchOutcome.netError => (s, LoginResult.connError)
  | FetchOutcome.jsonError _ => (s, LoginResult.connError)
  | FetchOutcome.success ok data =>
      if ok then
        match data.token with
        | some tok => (AuthService.setAuthData s tok data.user, LoginResult.body data)
        | none => (s, LoginResult.connError)
      else
        (s, LoginResult.body data)

/-- Embeds AuthService.logout: nulls this.token and this.user, removes both
localStorage entries, and navigates to /index.html (returned as the
redirect target). -/
def AuthService.logout (_ : AuthState) : AuthState × String :=
  (⟨none, none, none, none⟩, "/index.html")

/-- Embeds AuthService.isAuthenticated: the double-negation coercion of
this.token to a boolean (null and the empty string are falsy). -/
def AuthService.isAuthenticated (s : AuthState) : Bool :=
  match s.token with
  | none => false
  | some t => !(t == "")

/-! ## Frontend: script.js (src/The Gatekeeper/app/static/js/script.js).
Its session state is the module-level mutable binding authToken plus the
localStorage token entry. -/

/-- State of the script.js module: the module-level mutable variable
authToken (line 11) and the localStorage token entry. -/
structure ScriptState where
  authToken : Option String
  lsToken : Option String
deriving DecidableEq

/-- Embeds the module initialisation of script.js: authToken is loaded
from localStorage once at module load. -/
def ScriptJs.init (ls : Option String) : ScriptState := ⟨ls, ls⟩

/-- Embeds the success branch of the script.js login function: assigns the
module-level authToken and stores it in localStorage. -/
def ScriptJs.loginOk (_ : ScriptState) (access_token : String) : ScriptState :=
  ⟨some access_token, some access_token⟩

/-- Embeds the script.js logout function: nulls the module-level authToken
and removes the localStorage token entry. -/
def ScriptJs.logout (_ : ScriptState) : ScriptState :=
  ⟨none, none⟩

/-- Formalisation of claim C8 as stated: no operation of the program
mutates a module-level (process-wide) session binding; equivalently the
script.js module binding authToken is never changed by login. -/
def noMutableSessionSingleton : Prop :=
  ∀ (s : ScriptState) (t : String),
    (ScriptJs.loginOk s t).authToken = s.authToken ∧
    (ScriptJs.logout s).authToken = s.authToken

/-! ## Claim theorems -/

/-- Claim C2: verify(issue(identity, t0), t0 + d) returns the identity for
0 ≤ d < 30 min and fails with Expired for d ≥ 30 min; verify fails with
BadSignature when the signature does not verify, Expired when
now ≥ expires_at, Malformed when the token cannot be parsed, and otherwise
returns the subject identity. -/
theorem C2_token_roundtrip_and_verify (key : Nat) (identity : String) (t0 d now : Nat)
    (p : Payload) (s : Sig) :
    (d < tokenLifetime →
      TokenIssuer.verify key (TokenIssuer.issue key identity t0) (t0 + d) =
        Except.ok identity) ∧
    (tokenLifetime ≤ d →
      TokenIssuer.verify key (TokenIssuer.issue key identity t0) (t0 + d) =
        Except.error TokenError.Expired) ∧
    (TokenIssuer.verify key Token.malformed now = Except.error TokenError.Malformed) ∧
    (s ≠ sign key p →
      TokenIssuer.verify key (Token.signed p s) now = Except.error TokenError.BadSignature) ∧
    (s = sign key p → p.expires_at ≤ now →
      TokenIssuer.verify key (Token.signed p s) now = Except.error TokenError.Expired) ∧
    (s = sign key p → now < p.expires_at →
      TokenIssuer.verify key (Token.signed p s) now = Except.ok p.subject) := by
  refine ⟨?_, ?_, rfl, ?_, ?_, ?_⟩
  · intro hd
    simp [TokenIssuer.verify, TokenIssuer.issue]
    omega
  · intro hd
    simp [TokenIssuer.verify, TokenIssuer.issue]
    omega
  · intro hs
    simp [TokenIssuer.verify, hs]
  · intro hs hexp
    simp [TokenIssuer.verify, hs, hexp]
  · intro hs hlt
    simp [TokenIssuer.verify, hs, Nat.not_le.mpr hlt]

/-- Claim C2 witness: concrete round trip at t0 = 100 with the secret
key 7: fresh and 29-minute-old tokens verify to the identity, a
30-minute-old token is Expired. -/
theorem C2_token_roundtrip_and_verify_witness :
    TokenIssuer.verify 7 (TokenIssuer.issue 7 "alice" 100) (100 + 0) = Except.ok "alice" ∧
    TokenIssuer.verify 7 (TokenIssuer.issue 7 "alice" 100) (100 + 1740) = Except.ok "alice" ∧
    TokenIssuer.verify 7 (TokenIssuer.issue 7 "alice" 100) (100 + 1800) =
      Except.error TokenError.Expired :=
  ⟨(C2_token_roundtrip_and_verify 7 "alice" 100 0 0 ⟨"", 0, 0⟩ ⟨0, "", 0, 0⟩).1 (by decide),
   (C2_token_roundtrip_and_verify 7 "alice" 100 1740 0 ⟨"", 0, 0⟩ ⟨0, "", 0, 0⟩).1 (by decide),
   (C2_token_roundtrip_and_verify 7 "alice" 100 1800 0 ⟨"", 0, 0⟩ ⟨0, "", 0, 0⟩).2.1
     (by decide)⟩

/-- Claim C4: record_success clears the attempt entry entirely, a
subsequent record_failure starts a fresh window with count 1, and check
after a success always allows: the reset-on-success invariant. -/
theorem C4_record_success_resets (l : AttemptLedger) (identity : String) (now : Nat) :
    (l.record_success identity).find identity = none ∧
    ((l.record_success identity).record_failure identity now).find identity =
      some ⟨1, now, now⟩ ∧
    (l.record_success identity).check identity now = ⟨true, none⟩ := by
  have h : (l.record_success identity).find identity = none :=
    AttemptLedger.find_erase_self l identity
  refine ⟨h, ?_, ?_⟩
  · exact AttemptLedger.find_record_failure_fresh _ identity now h
  · simp [AttemptLedger.check, h]

/-- Claim C5: a failure recorded exactly at window_start + windowLen starts
a new window with count 1 rather than incrementing the old one: window
membership is half-open. -/
theorem C5_boundary_failure_starts_new_window (l : AttemptLedger) (identity : String)
    (st : AttemptState) (h : l.find identity = some st) :
    (l.record_failure identity (st.window_start + windowLen)).find identity =
      some ⟨1, st.window_start + windowLen, st.window_start + windowLen⟩ := by
  simp [AttemptLedger.record_failure, h, AttemptLedger.find_store_self]

/-- Claim C5 witness: an entry for bob with count 3 and window start 100;
a failure at time 1000 = 100 + 900 yields a fresh window of count 1. -/
theorem C5_boundary_failure_starts_new_window_witness :
    (AttemptLedger.record_failure [("bob", ⟨3, 100, 200⟩)] "bob" 1000).find "bob" =
      some ⟨1, 1000, 1000⟩ := by
  simpa using C5_boundary_failure_starts_new_window [("bob", ⟨3, 100, 200⟩)] "bob"
    ⟨3, 100, 200⟩ rfl

/-- Claim C7: PasswordHasher.verify is total and fails closed (false) on a
malformed hash blob, and TokenIssuer.verify is total, always returning a
Result value (ok identity or a TokenError), never a thrown fault. -/
theorem C7_no_exceptions (plaintext : List Bool) (hb : HashBlob) (key : Nat) (t : Token)
    (now : Nat) :
    PasswordHasher.verify plaintext HashBlob.malformed = false ∧
    (PasswordHasher.verify plaintext hb = true ∨ PasswordHasher.verify plaintext hb = false) ∧
    TokenIssuer.verify key Token.malformed now = Except.error TokenError.Malformed ∧
    ((∃ e, TokenIssuer.verify key t now = Except.error e) ∨
      (∃ identity, TokenIssuer.verify key t now = Except.ok identity)) := by
  refine ⟨rfl, ?_, rfl, ?_⟩
  · cases PasswordHasher.verify plaintext hb
    · exact Or.inr rfl
    · exact Or.inl rfl
  · cases t with
    | malformed => exact Or.inl ⟨TokenError.Malformed, rfl⟩
    | signed p s =>
        by_cases hs : s = sign key p
        · by_cases hexp : p.expires_at ≤ now
          · exact Or.inl ⟨TokenError.Expired, by simp [TokenIssuer.verify, hs, hexp]⟩
          · exact Or.inr ⟨p.subject, by simp [TokenIssuer.verify, hs, hexp]⟩
        · exact Or.inl ⟨TokenError.BadSignature, by simp [TokenIssuer.verify, hs]⟩

/-- Claim C10: logout unconditionally nulls the token and user, removes
both localStorage entries, redirects to /index.html, and leaves
isAuthenticated false; the script.js logout likewise clears the module
token state. -/
theorem C10_logout_clears_auth (s : AuthState) (s2 : ScriptState) :
    AuthService.logout s = (⟨none, none, none, none⟩, "/index.html") ∧
    AuthService.isAuthenticated (AuthService.logout s).1 = false ∧
    ScriptJs.logout s2 = ⟨none, none⟩ :=
  ⟨rfl, rfl, rfl⟩

/-- Claim C1: check allows whenever no entry exists, the count is below the
threshold, or the window has expired; and after exactly threshold (5)
consecutive failures within one 15-minute window, check returns
allowed=false with retry_after = window_start + windowLen - now, and the
next login attempt — even with the correct password — is rejected as
LockedOut while the window persists. -/
theorem C1_lockout_after_threshold_failures (key : Nat) (creds : List (String × HashBlob))
    (l : AttemptLedger) (identity : String) (password : List Bool)
    (t1 t2 t3 t4 t5 now : Nat) (h0 : l.find identity = none)
    (_h12 : t1 ≤ t2) (h23 : t2 ≤ t3) (h34 : t3 ≤ t4) (h45 : t4 ≤ t5)
    (hw : t5 < t1 + windowLen) (hnow : now < t1 + windowLen) :
    (∀ (m : AttemptLedger) (idt : String) (n : Nat),
        m.find idt = none → m.check idt n = ⟨true, none⟩) ∧
    (∀ (m : AttemptLedger) (idt : String) (n : Nat) (st : AttemptState),
        m.find idt = some st → st.count < threshold → m.check idt n = ⟨true, none⟩) ∧
    (∀ (m : AttemptLedger) (idt : String) (n : Nat) (st : AttemptState),
        m.find idt = some st → st.window_start + windowLen ≤ n →
        m.check idt n = ⟨true, none⟩) ∧
    (((((l.record_failure identity t1).record_failure identity t2).record_failure identity
        t3).record_failure identity t4).record_failure identity t5).check identity now =
      ⟨false, some (t1 + windowLen - now)⟩ ∧
    AuthGuard.login key creds
      (((((l.record_failure identity t1).record_failure identity t2).record_failure identity
        t3).record_failure identity t4).record_failure identity t5) identity password now =
      (AuthResult.lockedOut (t1 + windowLen - now),
        ((((l.record_failure identity t1).record_failure identity t2).record_failure identity
          t3).record_failure identity t4).record_failure identity t5, false) := by
  have h1 : (l.record_failure identity t1).find identity = some ⟨1, t1, t1⟩ :=
    AttemptLedger.find_record_failure_fresh l identity t1 h0
  have h2 : ((l.record_failure identity t1).record_failure identity t2).find identity =
      some ⟨2, t1, t2⟩ :=
    AttemptLedger.find_record_failure_open _ identity t2 _ h1
      (show t2 < t1 + windowLen by omega)
  have h3 : (((l.record_failure identity t1).record_failure identity t2).record_failure
      identity t3).find identity = some ⟨3, t1, t3⟩ :=
    AttemptLedger.find_record_failure_open _ identity t3 _ h2
      (show t3 < t1 + windowLen by omega)
  have h4 : ((((l.record_failure identity t1).record_failure identity t2).record_failure
      identity t3).record_failure identity t4).find identity = some ⟨4, t1, t4⟩ :=
    AttemptLedger.find_record_failure_open _ identity t4 _ h3
      (show t4 < t1 + windowLen by omega)
  have h5 : (((((l.record_failure identity t1).record_failure identity t2).record_failure
      identity t3).record_failure identity t4).record_failure identity t5).find identity =
      some ⟨5, t1, t5⟩ :=
    AttemptLedger.find_record_failure_open _ identity t5 _ h4
      (show t5 < t1 + windowLen by omega)
  have hnl : ¬ (t1 + windowLen ≤ now) := Nat.not_le.mpr hnow
  have hc : (((((l.record_failure identity t1).record_failure identity t2).record_failure
      identity t3).record_failure identity t4).record_failure identity t5).check identity
      now = ⟨false, some (t1 + windowLen - now)⟩ := by
    simp [AttemptLedger.check, h5, threshold, hnl]
  refine ⟨?_, ?_, ?_, hc, ?_⟩
  · intro m idt n h
    simp [AttemptLedger.check, h]
  · intro m idt n st h hlt
    simp [AttemptLedger.check, h, hlt]
  · intro m idt n st h hexp
    by_cases hcnt : st.count < threshold
    · simp [AttemptLedger.check, h, hcnt]
    · simp [AttemptLedger.check, h, hcnt, hexp]
  · simp [AuthGuard.login, hc]

/-- Claim C1 witness: from an empty ledger, alice fails at times 0, 60,
120, 180, 240; at time 300 check reports locked for another 600 seconds
and a login with the correct password is rejected as LockedOut without
invoking password verification. -/
theorem C1_lockout_after_threshold_failures_witness :
    AttemptLedger.check
      (AttemptLedger.record_failure
        (AttemptLedger.record_failure
          (AttemptLedger.record_failure
            (AttemptLedger.record_failure
              (AttemptLedger.record_failure [] "alice" 0) "alice" 60) "alice" 120)
          "alice" 180) "alice" 240) "alice" 300 = ⟨false, some 600⟩ ∧
    AuthGuard.login 0 [("alice", PasswordHasher.hash [true] 9)]
      (AttemptLedger.record_failure
        (AttemptLedger.record_failure
          (AttemptLedger.record_failure
            (AttemptLedger.record_failure
              (AttemptLedger.record_failure [] "alice" 0) "alice" 60) "alice" 120)
          "alice" 180) "alice" 240) "alice" [true] 300 =
      (AuthResult.lockedOut 600,
        AttemptLedger.record_failure
          (AttemptLedger.record_failure
            (AttemptLedger.record_failure
              (AttemptLedger.record_failure
                (AttemptLedger.record_failure [] "alice" 0) "alice" 60) "alice" 120)
            "alice" 180) "alice" 240, false) :=
  ⟨(C1_lockout_after_threshold_failures 0 [("alice", PasswordHasher.hash [true] 9)] []
      "alice" [true] 0 60 120 180 240 300 rfl (by decide) (by decide) (by decide)
      (by decide) (by decide) (by decide)).2.2.2.1,
   (C1_lockout_after_threshold_failures 0 [("alice", PasswordHasher.hash [true] 9)] []
      "alice" [true] 0 60 120 180 240 300 rfl (by decide) (by decide) (by decide)
      (by decide) (by decide) (by decide)).2.2.2.2⟩

/-- Claim C3: while an identity is locked (an entry at or past the
threshold whose window has not yet expired, i.e. now < retry_after), a
login attempt is rejected with a lockout error carrying the remaining
time, the ledger is unchanged, and password verification is never invoked,
regardless of the supplied password. -/
theorem C3_locked_skips_password_verification (key : Nat)
    (creds : List (String × HashBlob)) (l : AttemptLedger) (identity : String)
    (password : List Bool) (now : Nat) (st : AttemptState)
    (h : l.find identity = some st) (hth : threshold ≤ st.count)
    (hwin : now < st.window_start + windowLen) :
    AuthGuard.login key creds l identity password now =
      (AuthResult.lockedOut (st.window_start + windowLen - now), l, false) := by
  have hc : l.check identity now = ⟨false, some (st.window_start + windowLen - now)⟩ := by
    simp [AttemptLedger.check, h, Nat.not_lt.mpr hth, Nat.not_le.mpr hwin]
  simp [AuthGuard.login, hc]

/-- Claim C3 witness: alice is locked (count 5, window started at 0) and at
time 300 presents the correct password; the attempt is rejected as
LockedOut with 600 seconds left and the verification-invoked flag is
false. -/
theorem C3_locked_skips_password_verification_witness :
    AuthGuard.login 0 [("alice", PasswordHasher.hash [true] 9)]
      [("alice", ⟨5, 0, 240⟩)] "alice" [true] 300 =
      (AuthResult.lockedOut 600, [("alice", ⟨5, 0, 240⟩)], false) :=
  C3_locked_skips_password_verification 0 [("alice", PasswordHasher.hash [true] 9)]
    [("alice", ⟨5, 0, 240⟩)] "alice" [true] 300 ⟨5, 0, 240⟩ (by decide) (by decide)
    (by decide)

/-- Claim C6: verify(plaintext, hash(plaintext)) is true for every
plaintext and salt, and verify is false on any plaintext obtained by
flipping a single bit. -/
theorem C6_hash_verify_roundtrip (p : List Bool) (salt : Nat) (i : Nat)
    (hi : i < p.length) :
    PasswordHasher.verify p (PasswordHasher.hash p salt) = true ∧
    PasswordHasher.verify (flipBit p i) (PasswordHasher.hash p salt) = false := by
  have hne : flipBit p i ≠ p := by
    intro he
    have h1 : (flipBit p i)[i]? = some (!(p.getD i false)) := by
      simp [flipBit, List.getElem?_set_self hi]
    rw [he, List.getElem?_eq_getElem hi] at h1
    have h2 : p[i] = !(p.getD i false) := Option.some.inj h1
    rw [List.getD_eq_getElem p false hi] at h2
    simp at h2
  constructor
  · simp [PasswordHasher.verify, PasswordHasher.hash]
  · simp [PasswordHasher.verify, PasswordHasher.hash, Digest.mk.injEq]
    exact fun hpe => absurd hpe.symm hne

/-- Claim C6 witness: the two-bit plaintext [true, false] hashed with salt
3 verifies, and flipping bit 0 makes verification fail. -/
theorem C6_hash_verify_roundtrip_witness :
    PasswordHasher.verify [true, false] (PasswordHasher.hash [true, false] 3) = true ∧
    PasswordHasher.verify (flipBit [true, false] 0)
      (PasswordHasher.hash [true, false] 3) = false :=
  C6_hash_verify_roundtrip [true, false] 3 0 (by decide)

/-- Claim C8 counterexample: the claim that the program keeps no
process-wide mutable session singleton is false: the module-level
binding authToken of script.js, initialised to null, is mutated by a
successful login storing the received token. -/
theorem C8_no_singleton_counterexample : ¬ noMutableSessionSingleton := by
  intro hns
  have h := (hns (ScriptJs.init none) "tok").1
  simp [ScriptJs.init, ScriptJs.loginOk] at h

/-- Claim C8 amended: script.js does hold a process-wide mutable session
singleton — the module-level variable authToken — which a successful login
sets to the received access token and logout resets to null, with the
localStorage token entry kept in step; it is initialised from localStorage
at module load. -/
theorem C8_module_level_session_singleton (s : ScriptState) (t : String) :
    (ScriptJs.loginOk s t).authToken = some t ∧
    (ScriptJs.loginOk s t).lsToken = some t ∧
    (ScriptJs.logout s).authToken = none ∧
    ScriptJs.init (some t) = ⟨some t, some t⟩ :=
  ⟨rfl, rfl, rfl, rfl⟩

/-- Claim C9 counterexample: the claim that login returns the parsed
response body whenever fetch and JSON parsing succeed is false: on an ok
response whose body lacks a token object, reading
data.token.access_token throws inside the try block and login returns the
connection-error object instead of the body. -/
theorem C9_login_returns_body_counterexample :
    (AuthService.login ⟨none, none, none, none⟩
        (FetchOutcome.success true ⟨none, none⟩)).2 = LoginResult.connError ∧
    (AuthService.login ⟨none, none, none, none⟩
        (FetchOutcome.success true ⟨none, none⟩)).2 ≠
      LoginResult.body ⟨none, none⟩ := by
  decide

/-- Claim C9 amended: login and register never throw: on a fetch or
JSON-parsing failure — or on an ok response whose body lacks
token.access_token, where the field access throws into the same catch —
they return the object with success false and the connection-error
message and leave the auth state unchanged; otherwise they return the
parsed response body, and the auth state is updated (via setAuthData)
exactly when the response is ok. -/
theorem C9_login_register_error_handling (s : AuthState) (ok : Bool) (data : RespData)
    (tok : String) :
    (AuthService.login s FetchOutcome.netError = (s, LoginResult.connError)) ∧
    (AuthService.login s (FetchOutcome.jsonError ok) = (s, LoginResult.connError)) ∧
    (data.token = some tok →
      AuthService.login s (FetchOutcome.success true data) =
        (AuthService.setAuthData s tok data.user, LoginResult.body data)) ∧
    (data.token = none →
      AuthService.login s (FetchOutcome.success true data) = (s, LoginResult.connError)) ∧
    (AuthService.login s (FetchOutcome.success false data) = (s, LoginResult.body data)) ∧
    (AuthService.register s FetchOutcome.netError = (s, LoginResult.connError)) ∧
    (AuthService.register s (FetchOutcome.jsonError ok) = (s, LoginResult.connError)) ∧
    (data.token = some tok →
      AuthService.register s (FetchOutcome.success true data) =
        (AuthService.setAuthData s tok data.user, LoginResult.body data)) ∧
    (data.token = none →
      AuthService.register s (FetchOutcome.success true data) =
        (s, LoginResult.connError)) ∧
    (AuthService.register s (FetchOutcome.success false data) =
      (s, LoginResult.body data)) := by
  refine ⟨rfl, rfl, ?_, ?_, rfl, rfl, rfl, ?_, ?_, rfl⟩
  · intro h
    simp [AuthService.login, h]
  · intro h
    simp [AuthService.login, h]
  · intro h
    simp [AuthService.register, h]
  · intro h
    simp [AuthService.register, h]

/-- Claim C9 witness: a successful login response carrying token t and
user u updates the auth state through setAuthData and returns the parsed
body. -/
theorem C9_login_register_error_handling_witness :
    AuthService.login ⟨none, none, none, none⟩
        (FetchOutcome.success true ⟨some "t", some "u"⟩) =
      (AuthService.setAuthData ⟨none, none, none, none⟩ "t" (some "u"),
        LoginResult.body ⟨some "t", some "u"⟩) :=
  (C9_login_register_error_handling ⟨none, none, none, none⟩ true
    ⟨some "t", some "u"⟩ "t").2.2.1 rfl
